import Mathlib

/-!
Shallow embedding of the `long-nguyen12/microservice` repository:
the API-gateway `authorize` hook (src/unnamed/part_000) and the
`users` account service (src/services/users.service.js), together with
executable models of the external collaborators they call into
(bcryptjs, jsonwebtoken, the moleculer-db Mongo adapter, the Node fs
write/read streams).  Stateful handlers are embedded as explicit
state-passing functions over a list-backed credential store.
-/

namespace Microservice

/-- A stored user record, with the fields of the `users` collection
(`settings.entityValidator` plus the storage-assigned `_id`).  The
`password` field holds whatever string the service wrote there. -/
structure User where
  uid : String
  phoneNumber : String
  password : String
  fullname : String
  birthday : String
  gender : Bool
  inviteCode : Option String
  city : String
  address : Option String
  image : Option String
deriving DecidableEq, Repr

/-- The credential store: the `users` Mongo collection as a list of records. -/
abbrev Store := List User

/-- A lookup key as passed to `this.getById` / `adapter.removeById`.
JavaScript is untyped here: `me`/`resolveToken` pass the identifier
string, while `delete` passes the whole `ctx.params` object
(`const id = ctx.params`).  The Mongo adapter matches a document only
when the key equals the stored string identifier; an object key
matches nothing. -/
inductive MKey where
  | str : String → MKey
  | obj : String → MKey
deriving DecidableEq, Repr

/-- Adapter-level lookup by key: a document matches only when the key
is the string form of its `_id`. -/
def getByKey (store : Store) (k : MKey) : Option User :=
  store.find? (fun u => MKey.str u.uid = k)

/-- Lookup `this.getById(id)` with a plain string identifier. -/
def getById (store : Store) (id : String) : Option User :=
  getByKey store (MKey.str id)

/-- Lookup `this.adapter.findOne({ phoneNumber })`. -/
def findOneByPhone (store : Store) (phone : String) : Option User :=
  store.find? (fun u => u.phoneNumber = phone)

/-- One entry of the `data` array on a 422 error: `{ field, message }`. -/
structure FieldError where
  field : String
  message : String
deriving DecidableEq, Repr

/-- Errors thrown by the embedded handlers. -/
inductive Err where
  | clientError (message : String) (code : Nat) (data : List FieldError)
  | unAuthorized
  | jwtError (msg : String)
  | typeError (msg : String)
deriving DecidableEq, Repr

/-- Decidable equality for `Except`, so that concrete handler results
can be settled by `decide`. -/
instance instDecEqExcept {ε α : Type} [DecidableEq ε] [DecidableEq α] :
    DecidableEq (Except ε α) := fun x y =>
  match x, y with
  | .error a, .error b =>
    if h : a = b then .isTrue (by rw [h]) else .isFalse (by simp [h])
  | .error _, .ok _ => .isFalse (by simp)
  | .ok _, .error _ => .isFalse (by simp)
  | .ok a, .ok b =>
    if h : a = b then .isTrue (by rw [h]) else .isFalse (by simp [h])

/-! ## Kernel-reducible string primitives

JavaScript `s.split(sep)` for a one-character separator, plus
prefix/suffix tests and digit parsing, written by structural recursion
on the character list so that concrete instances evaluate inside
`decide` and `rfl` proofs (the core `String.splitOn` and
`String.toNat?` are defined by well-founded recursion and do not
reduce in the kernel). -/

/-- Split a character list at every occurrence of `sep`
(JavaScript `split` semantics: `"a  b"` gives `["a","","b"]`,
`""` gives `[""]`). -/
def splitChar (sep : Char) : List Char → List (List Char)
  | [] => [[]]
  | c :: rest =>
    let r := splitChar sep rest
    if c = sep then [] :: r
    else (c :: r.headD []) :: r.tail

/-- String-level split on a one-character separator. -/
def splitOnChar (sep : Char) (s : String) : List String :=
  (splitChar sep s.data).map String.mk

/-- Prefix test on strings via the character lists. -/
def strStartsWith (s pre : String) : Bool :=
  pre.data.isPrefixOf s.data

/-- Suffix test on strings via the character lists. -/
def strEndsWith (s post : String) : Bool :=
  post.data.isSuffixOf s.data

/-- Parse a non-empty all-digit character list as a decimal number. -/
def natOfChars : List Char → Option Nat
  | [] => none
  | cs => cs.foldl (fun acc? c =>
      match acc? with
      | none => none
      | some acc => if c.isDigit then some (acc * 10 + (c.toNat - 48)) else none)
      (some 0)

/-! ## bcryptjs model

`bcryptjs.hashSync(plain, 10)` produces a salted digest; `compare`
checks a plaintext against a digest.  The model keeps the two defining
properties the service relies on: a digest determines its plaintext up
to `compare`, and a digest is never equal to the plaintext itself
(it carries a recognizable prefix). -/

/-- Model of `bcryptjs.hashSync(plain, 10)` with an explicit salt. -/
def hashSync (plain salt : String) : String :=
  "bcrypt$10$" ++ salt ++ "$" ++ plain

/-- Model of `bcryptjs.compare(plain, digest)`: true iff `digest` was
produced from `plain` by `hashSync` under some salt. -/
def bcryptCompare (plain digest : String) : Bool :=
  strStartsWith digest "bcrypt$10$" && strEndsWith digest ("$" ++ plain)

/-! ## jsonwebtoken model

`jwt.sign(payload, secret)` / `jwt.verify(token, secret, cb)` with the
payload `{id, phoneNumber, exp}` used by `generateJWT`.  The model is
an injective string encoding carrying the secret as the signature;
`verify` fails on a wrong secret, a malformed token, or an expiry not
in the future (jsonwebtoken treats `exp ≤ now` as expired). -/

structure JwtPayload where
  id : String
  phoneNumber : String
  exp : Nat
deriving DecidableEq, Repr

/-- Model of `jwt.sign({id, phoneNumber, exp}, secret)`. -/
def jwtSign (p : JwtPayload) (secret : String) : String :=
  "jwt." ++ secret ++ "." ++ p.id ++ "." ++ p.phoneNumber ++ "." ++ toString p.exp

/-- Model of `jwt.verify(token, secret)` at clock time `now`
(unix seconds). -/
def jwtVerify (token secret : String) (now : Nat) : Except String JwtPayload :=
  match splitOnChar '.' token with
  | ["jwt", s, id, phone, expStr] =>
    if s = secret then
      match natOfChars expStr.data with
      | some exp => if exp ≤ now then .error "TokenExpiredError" else .ok ⟨id, phone, exp⟩
      | none => .error "JsonWebTokenError"
    else .error "JsonWebTokenError: invalid signature"
  | _ => .error "JsonWebTokenError: jwt malformed"

/-- Method `generateJWT(user)` from users.service.js: signs
`{id: user._id, phoneNumber: user.phoneNumber, exp: now + 60 days}`. -/
def generateJWT (id phone secret : String) (now : Nat) : String :=
  jwtSign ⟨id, phone, now + 60 * 86400⟩ secret

/-! ## Field projection

`settings.fields` lists the fields `transformDocuments` keeps:
`["_id","phoneNumber","password","fullname","birthday","gender",
"inviteCode","city","address"]` — `password` is in the list and
`image` is not.  The `_.pick` in the gateway method `authorize` uses exactly
the same nine fields, so one structure serves both. -/

structure Projected where
  uid : String
  phoneNumber : String
  password : String
  fullname : String
  birthday : String
  gender : Bool
  inviteCode : Option String
  city : String
  address : Option String
deriving DecidableEq, Repr

/-- Projection `transformDocuments(ctx, {}, user)` restricted to `settings.fields`,
which is also `_.pick(user, [...])` in the gateway method `authorize`. -/
def projectFields (u : User) : Projected :=
  { uid := u.uid
    phoneNumber := u.phoneNumber
    password := u.password
    fullname := u.fullname
    birthday := u.birthday
    gender := u.gender
    inviteCode := u.inviteCode
    city := u.city
    address := u.address }

/-! ## users.resolveToken -/

/-- The `resolveToken` action: verifies the token, then
`if (decoded.id) return this.getById(decoded.id)` — a falsy (empty)
identifier makes the handler return `undefined`.  A verification
failure rejects the promise of the action. -/
def resolveToken (store : Store) (secret token : String) (now : Nat) :
    Except String (Option User) :=
  match jwtVerify token secret now with
  | .error e => .error e
  | .ok decoded =>
    if decoded.id = "" then .ok none
    else .ok (getById store decoded.id)

/-! ## API-gateway authorize -/

/-- Header extraction from `authorize`: take the `Authorization`
header, split on spaces, require the first word to be exactly
`"Token"` or `"Bearer"`, and take the second word as the token; a
missing header, other scheme, or falsy (missing/empty) second word
leaves `token` undefined. -/
def parseAuthHeader : Option String → Option String
  | none => none
  | some s =>
    if s = "" then none
    else
      match splitOnChar ' ' s with
      | ty :: rest =>
        if ty = "Token" ∨ ty = "Bearer" then
          match rest with
          | t :: _ => if t = "" then none else some t
          | [] => none
        else none
      | [] => none

/-- The `ctx.meta` fields written by `authorize`. -/
structure AuthMeta where
  user : Option Projected
  token : Option String
  userID : Option String
deriving DecidableEq, Repr

/-- The resolved `user` (and accompanying meta) after the
`try { ctx.call("users.resolveToken") } catch (err) {}` block: every
resolution failure is swallowed and leaves the request anonymous. -/
def resolvePrincipalMeta (store : Store) (secret : String) (now : Nat)
    (authHeader : Option String) : AuthMeta :=
  match parseAuthHeader authHeader with
  | none => ⟨none, none, none⟩
  | some tok =>
    match resolveToken store secret tok now with
    | .error _ => ⟨none, none, none⟩
    | .ok none => ⟨none, none, none⟩
    | .ok (some u) => ⟨some (projectFields u), some tok, some u.uid⟩

/-- The gateway method `authorize(ctx, route, req)`: resolve a principal,
then `if (req.$action.auth == "required" && !user) throw new
UnAuthorizedError()`. -/
def authorize (store : Store) (secret : String) (now : Nat)
    (authHeader : Option String) (authRequired : Bool) : Except Err AuthMeta :=
  let meta := resolvePrincipalMeta store secret now authHeader
  if authRequired ∧ meta.user = none then .error .unAuthorized
  else .ok meta

/-- Request dispatch as the framework performs it: `authorize` runs
before the matched handler, and a throw from `authorize`
short-circuits dispatch, so the handler contributes nothing to the
outcome (response or store). -/
def dispatch {α : Type} (store : Store) (secret : String) (now : Nat)
    (authHeader : Option String) (authRequired : Bool)
    (handler : AuthMeta → Store → Except Err α × Store) : Except Err α × Store :=
  match authorize store secret now authHeader authRequired with
  | .error e => (.error e, store)
  | .ok meta => handler meta store

/-! ## users.create (register) -/

/-- The body of a registration request, shaped by the `params` schema
of the action. -/
structure CreateParams where
  phoneNumber : String
  password : String
  fullname : String
  birthday : String
  gender : Bool
  inviteCode : Option String
  city : String
  address : Option String
  image : Option String
deriving DecidableEq, Repr

/-- Validation `this.validateEntity(entity)` against `settings.entityValidator`:
the phone number must match the national-format regex (passed in
abstractly as `phonePat`, since no claim depends on the internals of
the pattern), the password must be at least 6 characters, the fullname
at least 1. -/
def validateUser (phonePat : String → Bool) (p : CreateParams) : Bool :=
  phonePat p.phoneNumber && decide (6 ≤ p.password.length) && decide (1 ≤ p.fullname.length)

/-- A profile response carrying the token attached by
`transformEntity(user, true, token)`: `user.token = token || this.generateJWT(user)`. -/
structure UserTok where
  user : User
  token : String
deriving DecidableEq, Repr

/-- A projected profile response (after `transformDocuments`) with the
attached token. -/
structure ProjTok where
  user : Projected
  token : String
deriving DecidableEq, Repr

/-- The document inserted by `create`: the request entity with the
bcrypt-hashed password (`entity.password = bcryptjs.hashSync(...)`),
`image` defaulted via `entity.image || null`, and the storage-assigned
identifier. -/
def createdDoc (p : CreateParams) (newId salt : String) : User :=
  { uid := newId
    phoneNumber := p.phoneNumber
    password := hashSync p.password salt
    fullname := p.fullname
    birthday := p.birthday
    gender := p.gender
    inviteCode := p.inviteCode
    city := p.city
    address := p.address
    image := p.image }

/-- The `create` action handler.  `newId` stands for the
storage-assigned identifier of the inserted document and `salt` for
the random bcrypt salt; `metaToken` is `ctx.meta.token` (set by
`authorize` when the request carried a resolvable token).  The create
response is `transformEntity(doc, ...)` on the raw inserted document
(no `transformDocuments` projection). -/
def create_handler (phonePat : String → Bool) (store : Store) (p : CreateParams)
    (newId salt : String) (metaToken : Option String) (secret : String) (now : Nat) :
    Except Err UserTok × Store :=
  if validateUser phonePat p = false then
    (.error (.clientError "Parameters validation error!" 422 []), store)
  else
    match findOneByPhone store p.phoneNumber with
    | some _ =>
      (.error (.clientError "Số điện thoại đã tồn tại!" 422
        [⟨"phoneNumber", "đã tồn tại!"⟩]), store)
    | none =>
      let doc := createdDoc p newId salt
      let tok := metaToken.getD (generateJWT doc.uid doc.phoneNumber secret now)
      (.ok ⟨doc, tok⟩, store ++ [doc])

/-! ## users.login -/

/-- The `login` action handler: find by phone number (422 citing
`phoneNumber` when absent), `bcryptjs.compare` against the stored
`password` (422 citing `password` on mismatch), then respond with the
projected profile and `ctx.meta.token || generateJWT(doc)`. -/
def login_handler (store : Store) (phoneNumber password : String)
    (metaToken : Option String) (secret : String) (now : Nat) : Except Err ProjTok :=
  match findOneByPhone store phoneNumber with
  | none =>
    .error (.clientError "Tài khoản không tồn tại!" 422
      [⟨"phoneNumber", "is not found"⟩])
  | some user =>
    if bcryptCompare password user.password = false then
      .error (.clientError "Tài khoản hoặc tên đăng nhập không đÚng!" 422
        [⟨"password", "is not correct"⟩])
    else
      let doc := projectFields user
      .ok ⟨doc, metaToken.getD (generateJWT doc.uid doc.phoneNumber secret now)⟩

/-! ## users.me -/

/-- The `me` action handler: fetch the caller by `ctx.meta.user._id`,
404 when missing, otherwise the projected profile with token. -/
def me_handler (store : Store) (userID : String) (metaToken : Option String)
    (secret : String) (now : Nat) : Except Err ProjTok :=
  match getById store userID with
  | none => .error (.clientError "User not found!" 404 [])
  | some user =>
    let doc := projectFields user
    .ok ⟨doc, metaToken.getD (generateJWT doc.uid doc.phoneNumber secret now)⟩

/-! ## users.update -/

/-- The body of an update-self request: every field optional, absent
fields are simply not present in `ctx.params`. -/
structure UpdateParams where
  password : Option String
  fullname : Option String
  birthday : Option String
  gender : Option Bool
  inviteCode : Option String
  city : Option String
  address : Option String
  image : Option String
deriving DecidableEq, Repr

/-- Mongo `$set: entity` on one document: each field present in the
update object is overwritten, each absent field keeps its stored
value. -/
def applySet (u : User) (p : UpdateParams) : User :=
  { u with
    password := p.password.getD u.password
    fullname := p.fullname.getD u.fullname
    birthday := p.birthday.getD u.birthday
    gender := p.gender.getD u.gender
    inviteCode := match p.inviteCode with | some v => some v | none => u.inviteCode
    city := p.city.getD u.city
    address := match p.address with | some v => some v | none => u.address
    image := match p.image with | some v => some v | none => u.image }

/-- The `update` action handler: `adapter.updateById(ctx.meta.user._id,
{$set: entity})`, then the projected updated document with token.
`updateById` returns `null` for a missing document, in which case
`transformEntity` passes the null through (`if (user)` guard). -/
def update_handler (store : Store) (userID : String) (p : UpdateParams)
    (metaToken : Option String) (secret : String) (now : Nat) :
    Except Err (Option ProjTok) × Store :=
  let store' := store.map (fun u => if u.uid = userID then applySet u p else u)
  match getById store userID with
  | none => (.ok none, store')
  | some u =>
    let doc := projectFields (applySet u p)
    (.ok (some ⟨doc, metaToken.getD (generateJWT doc.uid doc.phoneNumber secret now)⟩), store')

/-! ## users.delete -/

/-- The body of a delete request: `DELETE /:id` binds `ctx.params = { id }`. -/
structure DeleteParams where
  id : String
deriving DecidableEq, Repr

/-- The `delete` action handler.  The source reads `const id =
ctx.params;` — the whole params object, not `ctx.params.id` — and
passes it to `this.getById` and `adapter.removeById`, so the lookup
key is the object `{ id }` rather than the identifier string. -/
def delete_handler (store : Store) (p : DeleteParams) : Except Err User × Store :=
  let id := MKey.obj p.id
  match getByKey store id with
  | none => (.error (.clientError "User not found!" 404 []), store)
  | some user =>
    let store' := store.filter (fun u => ¬ MKey.str u.uid = id)
    (.ok user, store')

/-! ## users.uploadImage

The handler wires three callbacks around `ctx.params.pipe(f)` for
`f = fs.createWriteStream(filePath)`:
  * `f.on("close", ...)` performs the `$set image` database write;
  * `ctx.params.on("error", err => f.destroy(err))`;
  * `f.on("error", () => fs.unlinkSync(filePath))`.
Node fs.WriteStream semantics (autoClose/emitClose default true):
on a successful pipe, `finish` then `close` fire; on `destroy(err)`,
`error` fires and then `close` fires as well.  So the event order on
a mid-stream transport error is: source `error` → `f.destroy` →
`f error` (unlink the partial file) → `f close` (run the database
update anyway). -/

/-- An in-memory file system: path ↦ file contents. -/
abbrev FS := List (String × String)

/-- Remove a path (`fs.unlinkSync`). -/
def fsUnlink (fsys : FS) (path : String) : FS :=
  fsys.filter (fun e => ¬ e.1 = path)

/-- Write contents at a path, replacing any previous file. -/
def fsWrite (fsys : FS) (path contents : String) : FS :=
  (fsys.filter (fun e => ¬ e.1 = path)) ++ [(path, contents)]

/-- Look up a path. -/
def fsRead (fsys : FS) (path : String) : Option String :=
  (fsys.find? (fun e => e.1 = path)).map (·.2)

/-- How the incoming multipart stream ends: the full contents arrive,
or a transport error interrupts after a partial prefix was written. -/
inductive StreamOutcome where
  | success (contents : String)
  | transportError (written : String)
deriving DecidableEq, Repr

/-- The combined effect of the `uploadImage` callbacks on
the file system and the store, for a given stream outcome.  On
success: the file is stored and the `close` callback sets the
`image` field of the caller to the file path.  On a transport error: the source
`error` handler destroys the write stream, the `error` handler on `f`
unlinks the partially written file, and then the `close` event on `f`
still fires, running the same `$set image` database update. -/
def uploadImage_run (store : Store) (fsys : FS) (userID filePath : String)
    (outcome : StreamOutcome) : FS × Store :=
  let setImage := fun (s : Store) =>
    s.map (fun u => if u.uid = userID then { u with image := some filePath } else u)
  match outcome with
  | .success contents =>
    (fsWrite fsys filePath contents, setImage store)
  | .transportError written =>
    let fs1 := fsWrite fsys filePath written
    let fs2 := fsUnlink fs1 filePath
    (fs2, setImage store)

/-! ## users.getImage (action) and the getImage method -/

/-- What `fs.createReadStream(path)` yields once consumed: the stored
bytes, or an asynchronous stream error when the path does not exist
(not a thrown 404). -/
inductive ReadResult where
  | bytes (contents : String)
  | streamError (msg : String)
deriving DecidableEq, Repr

/-- Model of `fs.createReadStream`. -/
def createReadStream (fsys : FS) (path : String) : ReadResult :=
  match fsRead fsys path with
  | some c => .bytes c
  | none => .streamError "ENOENT"

/-- The avatar-download response: `ctx.meta.$responseType` and the
returned stream. -/
structure ImageResp where
  responseType : String
  body : ReadResult
deriving DecidableEq, Repr

/-- The `getImage` action handler: 404 only when the user record is
missing; otherwise it sets `image/png` and opens a read stream on
`user.image` without checking that the path exists.  A null `image`
makes `fs.createReadStream(null)` throw a TypeError. -/
def getImage_action (store : Store) (fsys : FS) (userID : String) :
    Except Err ImageResp :=
  match getById store userID with
  | none => .error (.clientError "User not found!" 404 [])
  | some user =>
    match user.image with
    | none => .error (.typeError "path must be a string or Buffer")
    | some p => .ok ⟨"image/png", createReadStream fsys p⟩

/-- The service-level `getImage(imagePath)` method (never invoked by
the action): it checks `fs.existsSync` but then evaluates `new
NotFoundError()`, a name not bound in the module (only
the `Errors` object of `moleculer-web` is imported, as `Error`), so the
missing-path branch raises a ReferenceError rather than returning a
404. -/
def getImage_method (fsys : FS) (imagePath : String) : Except Err ReadResult :=
  match fsRead fsys imagePath with
  | none => .error (.typeError "ReferenceError: NotFoundError is not defined")
  | some c => .ok (.bytes c)

/-! ## Concrete fixtures used by the claim theorems -/

/-- The default JWT secret (`process.env.JWT_SECRET || "jwt-health"`). -/
def demoSecret : String := "jwt-health"

/-- A fixed clock instant (unix seconds). -/
def demoNow : Nat := 1000000

/-- A registered user with a bcrypt-hashed password. -/
def demoUser : User :=
  { uid := "u1"
    phoneNumber := "0912345678"
    password := hashSync "secret1" "s1"
    fullname := "Alice"
    birthday := "1990-01-01"
    gender := true
    inviteCode := none
    city := "Hanoi"
    address := none
    image := none }

/-- A one-user store. -/
def demoStore : Store := [demoUser]

/-- A token issued for `demoUser` at `demoNow`. -/
def demoToken : String := generateJWT "u1" "0912345678" demoSecret demoNow

/-- A second user who has an avatar path on record. -/
def demoUserImg : User :=
  { demoUser with uid := "u2", phoneNumber := "0912345679", image := some "b.png" }

/-- A two-user store. -/
def demoStore2 : Store := [demoUser, demoUserImg]

/-- An update request carrying only a new password. -/
def demoUpdatePw : UpdateParams :=
  { password := some "newplain1", fullname := none, birthday := none, gender := none,
    inviteCode := none, city := none, address := none, image := none }

/-- An update request carrying only a new fullname. -/
def demoUpdateName : UpdateParams :=
  { password := none, fullname := some "Alice B", birthday := none, gender := none,
    inviteCode := none, city := none, address := none, image := none }

/-- A valid registration body for a fresh phone number. -/
def demoCreateParams : CreateParams :=
  { phoneNumber := "0387654321", password := "secret2", fullname := "Bob",
    birthday := "1991-02-02", gender := false, inviteCode := none, city := "HCM",
    address := none, image := none }

/-! ## Helper lemmas -/

/-- A Mongo `$set` update never touches the identifier. -/
@[simp] theorem applySet_uid (u : User) (p : UpdateParams) : (applySet u p).uid = u.uid := rfl

/-- The store returned by the `update` handler is the mapped store, in
both the found and the not-found branch. -/
theorem update_handler_store (store : Store) (uid : String) (p : UpdateParams)
    (metaToken : Option String) (secret : String) (now : Nat) :
    (update_handler store uid p metaToken secret now).2
      = store.map (fun u => if u.uid = uid then applySet u p else u) := by
  unfold update_handler
  cases getById store uid <;> rfl

/-- Looking up the updated identifier in the mapped store returns the
updated version of whatever the original lookup returned. -/
theorem getById_map_update (store : Store) (uid : String) (p : UpdateParams) :
    getById (store.map (fun u => if u.uid = uid then applySet u p else u)) uid
      = (getById store uid).map (fun u => applySet u p) := by
  induction store with
  | nil => rfl
  | cons v t ih =>
    by_cases h : v.uid = uid
    · simp [getById, getByKey, List.find?, h]
    · simpa [getById, getByKey, List.find?, h] using ih

/-! ## Claim theorems -/

/-- C1: the stored password hash is claimed never to reach
client-visible output, but the gateway attaches a principal whose
`password` field is the stored bcrypt hash (the `_.pick` list includes
`"password"`), and the fetch-self profile response carries the same
field (`settings.fields` includes `"password"`). -/
theorem C1_password_hash_reaches_client_outputs :
    (resolvePrincipalMeta demoStore demoSecret demoNow (some ("Bearer " ++ demoToken))).user
      = some (projectFields demoUser)
    ∧ (projectFields demoUser).password = hashSync "secret1" "s1"
    ∧ me_handler demoStore "u1" (some demoToken) demoSecret demoNow
      = .ok ⟨projectFields demoUser, demoToken⟩ := by
  refine ⟨by decide, rfl, by decide⟩

/-- C2: the update-self handler writes `ctx.params` through `$set`
without hashing, so an update that supplies a password stores the
plaintext at rest — unlike every `hashSync` digest, which carries the
digest prefix. -/
theorem C2_update_stores_plaintext_password :
    ((getById (update_handler demoStore "u1" demoUpdatePw none demoSecret demoNow).2 "u1").map
      User.password) = some "newplain1"
    ∧ strStartsWith "newplain1" "bcrypt$10$" = false
    ∧ ∀ salt : String, strStartsWith (hashSync "newplain1" salt) "bcrypt$10$" = true := by
  refine ⟨by decide, by decide, ?_⟩
  intro salt
  simp only [strStartsWith, hashSync, String.data_append, List.isPrefixOf_iff_prefix,
    List.append_assoc]
  exact List.prefix_append _ _

/-- C3: on a mid-stream transport error the `error` handler unlinks
the partial file, but the `close` event still fires after
`f.destroy(err)`, so the `$set image` database write runs anyway: the
file is gone, yet the `image` field of the caller now names the
removed path (it was `none` before the upload). -/
theorem C3_interrupted_upload_still_updates_image :
    fsRead (uploadImage_run demoStore [] "u1" "a.png" (.transportError "par")).1 "a.png" = none
    ∧ ((getById (uploadImage_run demoStore [] "u1" "a.png" (.transportError "par")).2 "u1").map
        User.image) = some (some "a.png")
    ∧ demoUser.image = none := by
  refine ⟨by decide, by decide, rfl⟩

/-- C4: the delete handler reads `const id = ctx.params` — the whole
params object — so the lookup key never matches a stored string
identifier and the action throws 404 even though the addressed user
exists (and removes nothing). -/
theorem C4_delete_404_despite_existing_user :
    getById demoStore "u1" = some demoUser
    ∧ delete_handler demoStore ⟨"u1"⟩
      = (.error (.clientError "User not found!" 404 []), demoStore) := by
  refine ⟨by decide, by decide⟩

/-- C5 counterexample: a user exists whose stored image path is
absent from the file system, yet the avatar-download action does not
fail with a 404 — it answers `.ok` with an `image/png` content type
and a read stream that will only error asynchronously. -/
theorem C5_missing_image_path_not_404 :
    getById demoStore2 "u2" = some demoUserImg
    ∧ fsRead ([] : FS) "b.png" = none
    ∧ getImage_action demoStore2 [] "u2" = .ok ⟨"image/png", .streamError "ENOENT"⟩ := by
  refine ⟨by decide, rfl, by decide⟩

/-- C5 (amended): the avatar-download action fails with the
404-equivalent error exactly when the user record does not exist;
when the user exists with a stored image path, it answers `image/png`
with a read stream opened on that path without checking that the path
exists (a missing file surfaces as a stream error, not a 404). -/
theorem C5_download_404_only_for_missing_user (store : Store) (fsys : FS) (uid : String) :
    (getById store uid = none ↔
      getImage_action store fsys uid = .error (.clientError "User not found!" 404 []))
    ∧ (∀ u p, getById store uid = some u → u.image = some p →
      getImage_action store fsys uid = .ok ⟨"image/png", createReadStream fsys p⟩) := by
  constructor
  · constructor
    · intro h
      simp [getImage_action, h]
    · intro h
      cases hg : getById store uid with
      | none => rfl
      | some u =>
        cases hi : u.image with
        | none => simp [getImage_action, hg, hi] at h
        | some p => simp [getImage_action, hg, hi] at h
  · intro u p hu hi
    simp [getImage_action, hu, hi]

/-- Witness for the amended C5 theorem at a concrete store and file
system. -/
theorem C5_download_404_only_for_missing_user_witness :
    getImage_action demoStore2 [] "u2" = .ok ⟨"image/png", createReadStream [] "b.png"⟩ :=
  (C5_download_404_only_for_missing_user demoStore2 [] "u2").2 demoUserImg "b.png"
    (by decide) (by decide)

/-- C6: with policy `required`, the gate throws `UnAuthorizedError`
exactly when no principal resolved; the only error it ever surfaces
is that one (every credential-related failure inside resolution is
swallowed into the anonymous outcome by the `catch`); and on the
rejection path dispatch returns the 401 outcome with the store
untouched, independently of the handler, so the handler never runs
and produces no side effects. -/
theorem C6_required_gate_behaviour (store : Store) (secret : String) (now : Nat)
    (header : Option String) :
    (authorize store secret now header true = .error .unAuthorized
      ↔ (resolvePrincipalMeta store secret now header).user = none)
    ∧ (∀ req : Bool, authorize store secret now header req = .error .unAuthorized
      ∨ authorize store secret now header req
        = .ok (resolvePrincipalMeta store secret now header))
    ∧ (∀ (α : Type) (handler : AuthMeta → Store → Except Err α × Store),
      (resolvePrincipalMeta store secret now header).user = none →
      dispatch store secret now header true handler = (.error .unAuthorized, store)) := by
  refine ⟨?_, ?_, ?_⟩
  · unfold authorize
    constructor
    · intro h
      by_cases hm : (resolvePrincipalMeta store secret now header).user = none
      · exact hm
      · simp [hm] at h
    · intro hm
      simp [hm]
  · intro req
    by_cases hc : req = true ∧ (resolvePrincipalMeta store secret now header).user = none
    · exact Or.inl (by simp [authorize, hc])
    · exact Or.inr (by simp [authorize, hc])
  · intro α handler hm
    unfold dispatch authorize
    simp [hm]

/-- Witness for the C6 theorem: an anonymous request against a
`required` action is rejected before any handler effect. -/
theorem C6_required_gate_behaviour_witness :
    dispatch demoStore demoSecret demoNow none true
      (fun _ s => (Except.ok (0 : Nat), s)) = (.error .unAuthorized, demoStore) :=
  (C6_required_gate_behaviour demoStore demoSecret demoNow none).2.2 Nat
    (fun _ s => (.ok 0, s)) (by decide)

/-- C7: authentication resolves to the anonymous outcome when the
`Authorization` header is absent; when the first space-separated word
is not exactly `"Token"` or `"Bearer"`; when no (non-empty) second
word follows the scheme; and when the token verifies but its decoded
identifier matches no stored user. -/
theorem C7_authenticate_anonymous_cases (store : Store) (secret : String) (now : Nat) :
    (resolvePrincipalMeta store secret now none).user = none
    ∧ (∀ (s ty : String) (rest : List String), splitOnChar ' ' s = ty :: rest →
      ¬ ty = "Token" → ¬ ty = "Bearer" →
      (resolvePrincipalMeta store secret now (some s)).user = none)
    ∧ (∀ (s ty : String), splitOnChar ' ' s = [ty] →
      (resolvePrincipalMeta store secret now (some s)).user = none)
    ∧ (∀ (s tok : String) (d : JwtPayload), parseAuthHeader (some s) = some tok →
      jwtVerify tok secret now = .ok d → getById store d.id = none →
      (resolvePrincipalMeta store secret now (some s)).user = none) := by
  refine ⟨rfl, ?_, ?_, ?_⟩
  · intro s ty rest hsp h1 h2
    have hp : parseAuthHeader (some s) = none := by
      by_cases hs : s = ""
      · simp [parseAuthHeader, hs]
      · simp [parseAuthHeader, hs, hsp, h1, h2]
    simp [resolvePrincipalMeta, hp]
  · intro s ty hsp
    have hp : parseAuthHeader (some s) = none := by
      by_cases hs : s = ""
      · simp [parseAuthHeader, hs]
      · by_cases hty : ty = "Token" ∨ ty = "Bearer" <;>
          simp [parseAuthHeader, hs, hsp, hty]
    simp [resolvePrincipalMeta, hp]
  · intro s tok d hpar hver hget
    simp only [resolvePrincipalMeta, hpar, resolveToken, hver]
    by_cases hid : d.id = ""
    · simp [hid]
    · simp [hid, hget]

/-- Witness for the C7 theorem: no header, a `Basic` scheme, a bare
`Bearer` with no token, and a valid token whose user was deleted all
resolve to the anonymous outcome. -/
theorem C7_authenticate_anonymous_cases_witness :
    (resolvePrincipalMeta demoStore demoSecret demoNow none).user = none
    ∧ (resolvePrincipalMeta demoStore demoSecret demoNow (some "Basic xyz")).user = none
    ∧ (resolvePrincipalMeta demoStore demoSecret demoNow (some "Bearer")).user = none
    ∧ (resolvePrincipalMeta [] demoSecret demoNow (some ("Bearer " ++ demoToken))).user
      = none :=
  ⟨(C7_authenticate_anonymous_cases demoStore demoSecret demoNow).1,
   (C7_authenticate_anonymous_cases demoStore demoSecret demoNow).2.1 "Basic xyz"
     "Basic" ["xyz"] (by decide) (by decide) (by decide),
   (C7_authenticate_anonymous_cases demoStore demoSecret demoNow).2.2.1 "Bearer"
     "Bearer" (by decide),
   (C7_authenticate_anonymous_cases [] demoSecret demoNow).2.2.2 ("Bearer " ++ demoToken)
     demoToken ⟨"u1", "0912345678", 6184000⟩ (by decide) (by decide) rfl⟩

/-- C8 counterexample: a successful registration made on a request
whose context already holds a resolved token answers with that
context token (via `transformEntity`: `token || this.generateJWT(user)`),
not with a freshly issued token for the created user. -/
theorem C8_register_reuses_context_token :
    (create_handler (fun _ => true) demoStore demoCreateParams "u9" "s9" (some demoToken)
        demoSecret demoNow).1
      = .ok ⟨createdDoc demoCreateParams "u9" "s9", demoToken⟩
    ∧ ¬ demoToken = generateJWT "u9" "0387654321" demoSecret demoNow := by
  refine ⟨by decide, by decide⟩

/-- C8 (amended): for a validated registration body, a duplicate
phone number yields the 422 error citing field `phoneNumber` with the
store unchanged; otherwise the inserted document carries the bcrypt
hash of the supplied password and the response is the created profile
plus a token — the request-context token when one was resolved,
otherwise a freshly issued one. -/
theorem C8_register_behaviour (phonePat : String → Bool) (store : Store) (p : CreateParams)
    (newId salt : String) (metaToken : Option String) (secret : String) (now : Nat)
    (hv : validateUser phonePat p = true) :
    (∀ u, findOneByPhone store p.phoneNumber = some u →
      create_handler phonePat store p newId salt metaToken secret now
        = (.error (.clientError "Số điện thoại đã tồn tại!" 422
            [⟨"phoneNumber", "đã tồn tại!"⟩]), store))
    ∧ (findOneByPhone store p.phoneNumber = none →
      create_handler phonePat store p newId salt metaToken secret now
        = (.ok ⟨createdDoc p newId salt,
            metaToken.getD (generateJWT newId p.phoneNumber secret now)⟩,
          store ++ [createdDoc p newId salt])
      ∧ (createdDoc p newId salt).password = hashSync p.password salt) := by
  constructor
  · intro u hdup
    simp [create_handler, hv, hdup]
  · intro hfree
    exact ⟨by simp [create_handler, hv, hfree, createdDoc], rfl⟩

/-- Witness for the amended C8 theorem: both the duplicate branch and
the fresh-registration branch at concrete inputs. -/
theorem C8_register_behaviour_witness :
    create_handler (fun _ => true) demoStore
      { demoCreateParams with phoneNumber := "0912345678" } "u9" "s9" none demoSecret demoNow
      = (.error (.clientError "Số điện thoại đã tồn tại!" 422
          [⟨"phoneNumber", "đã tồn tại!"⟩]), demoStore)
    ∧ create_handler (fun _ => true) demoStore demoCreateParams "u9" "s9" none demoSecret
        demoNow
      = (.ok ⟨createdDoc demoCreateParams "u9" "s9",
          generateJWT "u9" "0387654321" demoSecret demoNow⟩,
        demoStore ++ [createdDoc demoCreateParams "u9" "s9"]) :=
  ⟨(C8_register_behaviour (fun _ => true) demoStore
      { demoCreateParams with phoneNumber := "0912345678" } "u9" "s9" none demoSecret demoNow
      (by decide)).1 demoUser (by decide),
   ((C8_register_behaviour (fun _ => true) demoStore demoCreateParams "u9" "s9" none
      demoSecret demoNow (by decide)).2 (by decide)).1⟩

/-- C9: login answers the 422 error citing `phoneNumber` when no user
has the given phone number; the 422 error citing `password` when the
bcrypt comparison fails; and on success the projected profile with
the context token when present, else a freshly issued token. -/
theorem C9_login_behaviour (store : Store) (phone pw : String) (metaToken : Option String)
    (secret : String) (now : Nat) :
    (findOneByPhone store phone = none →
      login_handler store phone pw metaToken secret now
        = .error (.clientError "Tài khoản không tồn tại!" 422
            [⟨"phoneNumber", "is not found"⟩]))
    ∧ (∀ u, findOneByPhone store phone = some u → bcryptCompare pw u.password = false →
      login_handler store phone pw metaToken secret now
        = .error (.clientError "Tài khoản hoặc tên đăng nhập không đÚng!" 422
            [⟨"password", "is not correct"⟩]))
    ∧ (∀ u, findOneByPhone store phone = some u → bcryptCompare pw u.password = true →
      login_handler store phone pw metaToken secret now
        = .ok ⟨projectFields u, metaToken.getD (generateJWT u.uid u.phoneNumber secret now)⟩) := by
  refine ⟨?_, ?_, ?_⟩
  · intro h
    simp [login_handler, h]
  · intro u hu hc
    simp [login_handler, hu, hc]
  · intro u hu hc
    simp [login_handler, hu, hc, projectFields]

/-- Witness for the C9 theorem: unknown phone, wrong password, and
correct credentials, each at a concrete store. -/
theorem C9_login_behaviour_witness :
    login_handler demoStore "0900000000" "secret1" none demoSecret demoNow
      = .error (.clientError "Tài khoản không tồn tại!" 422
          [⟨"phoneNumber", "is not found"⟩])
    ∧ login_handler demoStore "0912345678" "wrongpw" none demoSecret demoNow
      = .error (.clientError "Tài khoản hoặc tên đăng nhập không đÚng!" 422
          [⟨"password", "is not correct"⟩])
    ∧ login_handler demoStore "0912345678" "secret1" none demoSecret demoNow
      = .ok ⟨projectFields demoUser, generateJWT "u1" "0912345678" demoSecret demoNow⟩ :=
  ⟨(C9_login_behaviour demoStore "0900000000" "secret1" none demoSecret demoNow).1
     (by decide),
   (C9_login_behaviour demoStore "0912345678" "wrongpw" none demoSecret demoNow).2.1
     demoUser (by decide) (by decide),
   (C9_login_behaviour demoStore "0912345678" "secret1" none demoSecret demoNow).2.2
     demoUser (by decide) (by decide)⟩

/-- C10: the update-self handler has partial-update semantics: the
updated record is exactly the stored record with the supplied fields
overwritten, every absent field keeps its previous value (in
particular it is not nulled), and every other record in the store is
untouched. -/
theorem C10_partial_update_frame (store : Store) (uid : String) (u : User) (p : UpdateParams)
    (metaToken : Option String) (secret : String) (now : Nat)
    (hu : getById store uid = some u) :
    getById (update_handler store uid p metaToken secret now).2 uid = some (applySet u p)
    ∧ (p.password = none → (applySet u p).password = u.password)
    ∧ (p.fullname = none → (applySet u p).fullname = u.fullname)
    ∧ (p.birthday = none → (applySet u p).birthday = u.birthday)
    ∧ (p.gender = none → (applySet u p).gender = u.gender)
    ∧ (p.inviteCode = none → (applySet u p).inviteCode = u.inviteCode)
    ∧ (p.city = none → (applySet u p).city = u.city)
    ∧ (p.address = none → (applySet u p).address = u.address)
    ∧ (p.image = none → (applySet u p).image = u.image)
    ∧ (∀ v, v ∈ store → ¬ v.uid = uid →
      v ∈ (update_handler store uid p metaToken secret now).2) := by
  refine ⟨?_, ?_, ?_, ?_, ?_, ?_, ?_, ?_, ?_, ?_⟩
  · rw [update_handler_store, getById_map_update, hu]
    rfl
  · intro h
    simp [applySet, h]
  · intro h
    simp [applySet, h]
  · intro h
    simp [applySet, h]
  · intro h
    simp [applySet, h]
  · intro h
    simp [applySet, h]
  · intro h
    simp [applySet, h]
  · intro h
    simp [applySet, h]
  · intro h
    simp [applySet, h]
  · intro v hv hne
    rw [update_handler_store]
    have hmem := List.mem_map_of_mem (fun w => if w.uid = uid then applySet w p else w) hv
    simpa [hne] using hmem

/-- Witness for the C10 theorem: updating only `fullname` leaves
`city` and `address` unchanged. -/
theorem C10_partial_update_frame_witness :
    getById (update_handler demoStore "u1" demoUpdateName none demoSecret demoNow).2 "u1"
      = some (applySet demoUser demoUpdateName)
    ∧ (applySet demoUser demoUpdateName).city = demoUser.city
    ∧ (applySet demoUser demoUpdateName).address = demoUser.address :=
  ⟨(C10_partial_update_frame demoStore "u1" demoUser demoUpdateName none demoSecret demoNow
      (by decide)).1,
   (C10_partial_update_frame demoStore "u1" demoUser demoUpdateName none demoSecret demoNow
      (by decide)).2.2.2.2.2.2.1 rfl,
   (C10_partial_update_frame demoStore "u1" demoUser demoUpdateName none demoSecret demoNow
      (by decide)).2.2.2.2.2.2.2.1 rfl⟩

end Microservice
